import Mathlib

/-!
# ProofForge — verification of the evaluate → hash → anchor → persist pipeline

A shallow embedding, in Lean 4, of the parts of the ProofForge code base that
the specification's claims are about:

* `evaluator.py` — the local rule-based scoring engine (`evaluate_repo_local`),
  the indicator-based quality score used on the ASI path (`get_quality_score`),
  and the dispatcher `evaluate_repo`;
* `main.py` — the trace hasher `generate_trace_hash` (canonical JSON
  serialization followed by SHA-256, rendered as lowercase hex) and the
  `/evaluate` endpoint's control flow, in particular its exception
  translation to HTTP status codes;
* `hedera_client.py` — `submit_proof` with its mock-receipt fallback (built
  from Python's salted string hash, embedded here as SipHash-1-3 with the
  process hash seed an explicit parameter) and `get_hedera_explorer_url`;
* `storage.py` — the JSON-file result store: `save_storage` with its
  backup/rollback logic, `save_evaluation`, `load_storage` and the queries.

Python integers are embedded as `Int` (or `Nat` for byte/word arithmetic with
explicit `% 2 ^ 32` / `% 2 ^ 64` where the source relies on fixed-width
operations), `Optional[T]` as `Option`, raised exceptions as `Except` values,
the file system of the store as an explicit state record, and external
effects (GitHub, the Hedera network, the process hash seed, the clock) as
explicit parameters.
-/

set_option maxRecDepth 10000

namespace ProofForge

/-! ## Data model (`models.py`)

`RepoInfo` mirrors the pydantic model: `stars`, `open_issues`, `commit_count`
are Python `int`s (arbitrary-precision, possibly negative — embedded as
`Int`), `has_tests : bool`, and `description`, `language`, `size` are
`Optional` fields defaulting to `None`. -/

structure RepoInfo where
  stars : Int
  open_issues : Int
  has_tests : Bool
  commit_count : Int
  description : Option String := none
  language : Option String := none
  size : Option Int := none
  deriving Repr, DecidableEq

/-! ## Scoring engine (`evaluator.py`, `evaluate_repo_local`)

A direct sequential translation of the Python: `score` and `trace` are
threaded through the six rule blocks exactly as the source mutates them.
Python truthiness of the `Optional` fields is spelled out: `None` and the
empty string are falsy for `language`; `None` and `0` are falsy for `size`.
Note that the source has no `else` branch in the language block and none in
the size block (and none for `size ≤ 1000`), so those two rules append a
trace line only when they award points. -/

/-- The stars block of `evaluate_repo_local` (lines 15–27), as a transformer
of the running `(score, trace)` state. -/
def starsBlock (stars : Int) (st : Int × List String) : Int × List String :=
  if stars ≥ 1000 then (st.1 + 50, st.2 ++ ["High stars (1000+): +50"])
  else if stars ≥ 100 then (st.1 + 30, st.2 ++ [s!"Good stars ({stars}): +30"])
  else if stars ≥ 10 then (st.1 + 15, st.2 ++ [s!"Some stars ({stars}): +15"])
  else (st.1, st.2 ++ [s!"Low stars ({stars}): +0"])

/-- The test-presence block (lines 29–34). -/
def testsBlock (has_tests : Bool) (st : Int × List String) : Int × List String :=
  if has_tests then (st.1 + 25, st.2 ++ ["Has tests: +25"])
  else (st.1, st.2 ++ ["No tests found: +0"])

/-- The activity block (lines 36–45). -/
def activityBlock (commit_count : Int) (st : Int × List String) : Int × List String :=
  if commit_count ≥ 100 then (st.1 + 20, st.2 ++ [s!"High activity ({commit_count} commits): +20"])
  else if commit_count ≥ 10 then (st.1 + 10, st.2 ++ [s!"Some activity ({commit_count} commits): +10"])
  else (st.1, st.2 ++ [s!"Low activity ({commit_count} commits): +0"])

/-- The issues block (lines 47–56). -/
def issuesBlock (open_issues : Int) (st : Int × List String) : Int × List String :=
  if open_issues = 0 then (st.1 + 15, st.2 ++ ["No open issues: +15"])
  else if open_issues ≤ 10 then (st.1 + 5, st.2 ++ [s!"Few open issues ({open_issues}): +5"])
  else (st.1, st.2 ++ [s!"Many open issues ({open_issues}): +0"])

/-- The language block (lines 58–61): `if repo_info.language:` — `None` and
`""` are falsy, and there is no `else` branch, so nothing is appended when
the bonus is not awarded. -/
def languageBlock (language : Option String) (st : Int × List String) : Int × List String :=
  match language with
  | some l => if l = "" then st
              else (st.1 + 5, st.2 ++ [s!"Has language ({l}): +5"])
  | none => st

/-- The size block (lines 63–70): `if repo_info.size:` — `None` and `0` are
falsy; no trace line is appended when `size ≤ 1000`. -/
def sizeBlock (size : Option Int) (st : Int × List String) : Int × List String :=
  match size with
  | some sz =>
      if sz = 0 then st
      else if sz > 10000 then (st.1 + 10, st.2 ++ [s!"Large codebase ({sz} KB): +10"])
      else if sz > 1000 then (st.1 + 5, st.2 ++ [s!"Medium codebase ({sz} KB): +5"])
      else st
  | none => st

def evaluate_repo_local (repo_info : RepoInfo) : Int × List String :=
  sizeBlock repo_info.size
    (languageBlock repo_info.language
      (issuesBlock repo_info.open_issues
        (activityBlock repo_info.commit_count
          (testsBlock repo_info.has_tests
            (starsBlock repo_info.stars (0, []))))))

/-- Scenario A facts from the spec:
`{stars:1500, has_tests:true, commit_count:150, open_issues:0, language:"Go", size_kb:12000}`. -/
def scenarioA : RepoInfo :=
  { stars := 1500, open_issues := 0, has_tests := true, commit_count := 150,
    language := some "Go", size := some 12000 }

/-- Scenario B facts from the spec:
`{stars:5, has_tests:false, commit_count:2, open_issues:20, language:None, size_kb:50}`. -/
def scenarioB : RepoInfo :=
  { stars := 5, open_issues := 20, has_tests := false, commit_count := 2,
    language := none, size := some 50 }

/-- Python truthiness of an `Optional[str]`: `None` and `""` are falsy. -/
def optStrTruthy : Option String → Bool
  | some l => l ≠ ""
  | none => false

/-- Whether the size block of `evaluate_repo_local` appends a trace line:
`size` truthy and strictly above `1000`. -/
def sizeFiresCond : Option Int → Bool
  | some sz => sz ≠ 0 && sz > 1000
  | none => false

/-- Whether the language block of `evaluate_repo_local` fires (Python
truthiness of `repo_info.language`). -/
def languageTruthy (repo_info : RepoInfo) : Bool := optStrTruthy repo_info.language

/-- Whether the size block of `evaluate_repo_local` appends a trace line. -/
def sizeLineFires (repo_info : RepoInfo) : Bool := sizeFiresCond repo_info.size

/-! ## Trace hasher (`main.py`, `generate_trace_hash`)

`generate_trace_hash(trace)` is `hashlib.sha256(json.dumps(trace,
sort_keys=True).encode()).hexdigest()`.  `sort_keys=True` only affects JSON
objects; on a list of strings `json.dumps` emits the elements in order,
separated by `", "`, each escaped exactly as CPython's ASCII encoder does
(characters outside `0x20`–`0x7e` become `\uXXXX`, astral characters a
surrogate pair).  `.encode()` is UTF-8 (the serialized form is pure ASCII,
but the encoder is embedded in full).  SHA-256 is embedded over byte lists
with words as `Nat` reduced by `% 2 ^ 32`. -/

/-- The sixteen lowercase hex digits, in value order. -/
def hexChars : List Char := "0123456789abcdef".data

/-- The lowercase hex digit of a value below 16. -/
def hexDigit (n : Nat) : Char := hexChars.getD n '0'

/-- Four lowercase hex digits of a 16-bit value (the `XXXX` of `\uXXXX`). -/
def hex4 (n : Nat) : String :=
  String.mk [hexDigit (n / 4096 % 16), hexDigit (n / 256 % 16),
             hexDigit (n / 16 % 16), hexDigit (n % 16)]

/-- Eight lowercase hex digits of a 32-bit word, most significant first. -/
def hex8 (n : Nat) : String :=
  String.mk ((List.range 8).map fun i => hexDigit (n / 16 ^ (7 - i) % 16))

/-- One character of CPython's `json.dumps` ASCII string escaping: the named
two-character escapes, `\uXXXX` for other characters outside `0x20`–`0x7e`,
and a UTF-16 surrogate pair for astral characters. -/
def pyJsonEscapeChar (c : Char) : String :=
  if c = '"' then "\\\""
  else if c = '\\' then "\\\\"
  else if c = '\n' then "\\n"
  else if c = '\t' then "\\t"
  else if c = '\r' then "\\r"
  else if c.toNat = 8 then "\\b"
  else if c.toNat = 12 then "\\f"
  else if c.toNat < 32 then "\\u" ++ hex4 c.toNat
  else if c.toNat < 127 then String.singleton c
  else if c.toNat < 65536 then "\\u" ++ hex4 c.toNat
  else
    let v := c.toNat - 65536
    "\\u" ++ hex4 (55296 + v / 1024) ++ "\\u" ++ hex4 (56320 + v % 1024)

/-- `json.dumps` of a single string: the escaped characters in double quotes. -/
def pyJsonStringLit (s : String) : String :=
  "\"" ++ String.join (s.data.map pyJsonEscapeChar) ++ "\""

/-- Concatenation with a separator between elements (`sep.join(items)`). -/
def joinSep (sep : String) : List String → String
  | [] => ""
  | [x] => x
  | x :: y :: rest => x ++ sep ++ joinSep sep (y :: rest)

/-- `json.dumps(trace, sort_keys=True)` for a list of strings: the string
literals in order, separated by `", "`, in brackets (`sort_keys` is a no-op
on arrays). -/
def pyJsonDumpsList (trace : List String) : String :=
  "[" ++ joinSep ", " (trace.map pyJsonStringLit) ++ "]"

/-- UTF-8 encoding of one character, as bytes. -/
def utf8EncodeChar (c : Char) : List Nat :=
  let n := c.toNat
  if n < 128 then [n]
  else if n < 2048 then [192 + n / 64, 128 + n % 64]
  else if n < 65536 then [224 + n / 4096, 128 + n / 64 % 64, 128 + n % 64]
  else [240 + n / 262144, 128 + n / 4096 % 64, 128 + n / 64 % 64, 128 + n % 64]

/-- `str.encode()`: UTF-8 bytes of a string. -/
def utf8Encode (s : String) : List Nat := s.data.flatMap utf8EncodeChar

/-- Reduce to a 32-bit word. -/
def w32 (n : Nat) : Nat := n % 4294967296

/-- Right rotation of a 32-bit word by `n` places. -/
def rotr32 (x n : Nat) : Nat := w32 (x / 2 ^ n + x % 2 ^ n * 2 ^ (32 - n))

/-- Logical right shift. -/
def shr32 (x n : Nat) : Nat := x / 2 ^ n

/-- The SHA-256 round constants (fractional parts of cube roots of the first
64 primes), as 32-bit words. -/
def sha256K : List Nat :=
  [1116352408, 1899447441, 3049323471, 3921009573, 961987163, 1508970993, 2453635748, 2870763221,
   3624381080, 310598401, 607225278, 1426881987, 1925078388, 2162078206, 2614888103, 3248222580,
   3835390401, 4022224774, 264347078, 604807628, 770255983, 1249150122, 1555081692, 1996064986,
   2554220882, 2821834349, 2952996808, 3210313671, 3336571891, 3584528711, 113926993, 338241895,
   666307205, 773529912, 1294757372, 1396182291, 1695183700, 1986661051, 2177026350, 2456956037,
   2730485921, 2820302411, 3259730800, 3345764771, 3516065817, 3600352804, 4094571909, 275423344,
   430227734, 506948616, 659060556, 883997877, 958139571, 1322822218, 1537002063, 1747873779,
   1955562222, 2024104815, 2227730452, 2361852424, 2428436474, 2756734187, 3204031479, 3329325298]

/-- The SHA-256 initial hash value. -/
def sha256H0 : List Nat :=
  [1779033703, 3144134277, 1013904242, 2773480762,
   1359893119, 2600822924, 528734635, 1541459225]

/-- Big-endian length suffix of the padding: the bit length as 8 bytes. -/
def sha256LenBytes (bits : Nat) : List Nat :=
  (List.range 8).map fun i => bits / 2 ^ (8 * (7 - i)) % 256

/-- SHA-256 padding: a `0x80` byte, zeros to 56 mod 64, then the bit length. -/
def sha256Pad (msg : List Nat) : List Nat :=
  let padZeros := (119 - msg.length % 64) % 64
  msg ++ [128] ++ List.replicate padZeros 0 ++ sha256LenBytes (8 * msg.length)

/-- Split a byte list into 64-byte blocks (structural recursion on a fuel
bound of one block per remaining byte, so the definition reduces). -/
def chunks64Aux : Nat → List Nat → List (List Nat)
  | 0, _ => []
  | _ + 1, [] => []
  | fuel + 1, x :: xs => (x :: xs).take 64 :: chunks64Aux fuel ((x :: xs).drop 64)

/-- Split a byte list into 64-byte blocks. -/
def chunks64 (l : List Nat) : List (List Nat) := chunks64Aux l.length l

/-- Pack bytes into 32-bit words, big-endian, four at a time. -/
def beWords : List Nat → List Nat
  | a :: b :: c :: d :: rest => (a * 16777216 + b * 65536 + c * 256 + d) :: beWords rest
  | _ => []

/-- `σ₀` of the SHA-256 message schedule. -/
def smallSigma0 (x : Nat) : Nat := rotr32 x 7 ^^^ rotr32 x 18 ^^^ shr32 x 3

/-- `σ₁` of the SHA-256 message schedule. -/
def smallSigma1 (x : Nat) : Nat := rotr32 x 17 ^^^ rotr32 x 19 ^^^ shr32 x 10

/-- Extend the 16 block words by `k` more schedule words. -/
def sha256Extend : Nat → List Nat → List Nat
  | 0, ws => ws
  | k + 1, ws =>
      let i := ws.length
      let w := w32 (smallSigma1 (ws.getD (i - 2) 0) + ws.getD (i - 7) 0 +
                    smallSigma0 (ws.getD (i - 15) 0) + ws.getD (i - 16) 0)
      sha256Extend k (ws ++ [w])

/-- `Σ₀` of the compression function. -/
def bigSigma0 (x : Nat) : Nat := rotr32 x 2 ^^^ rotr32 x 13 ^^^ rotr32 x 22

/-- `Σ₁` of the compression function. -/
def bigSigma1 (x : Nat) : Nat := rotr32 x 6 ^^^ rotr32 x 11 ^^^ rotr32 x 25

/-- The `Ch` function (`¬x` as xor against the all-ones word). -/
def chFn (x y z : Nat) : Nat := (x &&& y) ^^^ ((x ^^^ 4294967295) &&& z)

/-- The `Maj` function. -/
def majFn (x y z : Nat) : Nat := (x &&& y) ^^^ (x &&& z) ^^^ (y &&& z)

/-- The eight working variables of the SHA-256 compression loop. -/
structure Sha256State where
  a : Nat
  b : Nat
  c : Nat
  d : Nat
  e : Nat
  f : Nat
  g : Nat
  h : Nat
  deriving Repr

/-- One round of the SHA-256 compression loop. -/
def sha256Round (st : Sha256State) (k w : Nat) : Sha256State :=
  let t1 := w32 (st.h + bigSigma1 st.e + chFn st.e st.f st.g + k + w)
  let t2 := w32 (bigSigma0 st.a + majFn st.a st.b st.c)
  { a := w32 (t1 + t2), b := st.a, c := st.b, d := st.c,
    e := w32 (st.d + t1), f := st.e, g := st.f, h := st.g }

/-- Compress one 64-byte block into the running hash value. -/
def sha256Compress (hs : List Nat) (block : List Nat) : List Nat :=
  let ws := sha256Extend 48 (beWords block)
  let init : Sha256State :=
    { a := hs.getD 0 0, b := hs.getD 1 0, c := hs.getD 2 0, d := hs.getD 3 0,
      e := hs.getD 4 0, f := hs.getD 5 0, g := hs.getD 6 0, h := hs.getD 7 0 }
  let st := (sha256K.zip ws).foldl (fun st kw => sha256Round st kw.1 kw.2) init
  [w32 (hs.getD 0 0 + st.a), w32 (hs.getD 1 0 + st.b),
   w32 (hs.getD 2 0 + st.c), w32 (hs.getD 3 0 + st.d),
   w32 (hs.getD 4 0 + st.e), w32 (hs.getD 5 0 + st.f),
   w32 (hs.getD 6 0 + st.g), w32 (hs.getD 7 0 + st.h)]

/-- The eight 32-bit words of the SHA-256 digest of a byte list. -/
def sha256Words (msg : List Nat) : List Nat :=
  (chunks64 (sha256Pad msg)).foldl sha256Compress sha256H0

/-- `hashlib.sha256(msg).hexdigest()`: the digest words in lowercase hex. -/
def sha256Hexdigest (msg : List Nat) : String :=
  String.join ((sha256Words msg).map hex8)

/-- `generate_trace_hash` from `main.py`: SHA-256 hex digest of the canonical
JSON serialization of the trace, UTF-8 encoded. -/
def generate_trace_hash (trace : List String) : String :=
  sha256Hexdigest (utf8Encode (pyJsonDumpsList trace))

/-! ## ASI-path evaluator (`evaluator.py`, `get_quality_score`, `evaluate_repo`)

When `evaluate_repo` is called with `use_asi=True` and the `ASI_API_KEY`
environment variable set, the persisted score comes from
`evaluate_repo_with_asi`: a quality score computed by substring matching
over a deterministic indicator list (the external AI model only contributes
the narrative `analysis_report`, which is not part of the persisted score or
trace).  On any unexpected exception in that path, the code falls back to
`evaluate_repo_local`. -/

/-- `pre` is a prefix of the second list (Python `str.startswith` on
character lists). -/
def startsWithChars : List Char → List Char → Bool
  | [], _ => true
  | p :: ps, s =>
      match s with
      | c :: cs => p == c && startsWithChars ps cs
      | [] => false

/-- `needle` occurs as a contiguous run inside the second list. -/
def hasSubstrChars (needle : List Char) : List Char → Bool
  | [] => startsWithChars needle []
  | b :: bs => startsWithChars needle (b :: bs) || hasSubstrChars needle bs

/-- Python's `needle in hay` on strings: substring containment. -/
def pyContains (hay needle : String) : Bool := hasSubstrChars needle.data hay.data

/-- Python `s.startswith(pre)`. -/
def pyStartsWith (s pre : String) : Bool := startsWithChars pre.data s.data

/-- `get_quality_score` from `evaluator.py`: 25 points for an indicator
containing `comprehensive`/`active`/`high`/`well-maintained`, 15 for
`moderate`/`some`/`recent`, 5 otherwise, capped at 100.  (Note the substring
check: `"inactive repository"` contains `"active"` and scores 25.) -/
def get_quality_score (indicators : List String) : Int :=
  let score := indicators.foldl (fun score indicator =>
    if pyContains indicator "comprehensive" || pyContains indicator "active" ||
       pyContains indicator "high" || pyContains indicator "well-maintained" then score + 25
    else if pyContains indicator "moderate" || pyContains indicator "some" ||
            pyContains indicator "recent" then score + 15
    else score + 5) 0
  min score 100

/-- The quality-indicator list built inline in `evaluate_repo_with_asi`
(lines 285–315): stars, tests, activity, issues. -/
def asiQualityIndicators (repo_info : RepoInfo) : List String :=
  let l1 := if repo_info.stars ≥ 1000 then "high community adoption"
            else if repo_info.stars ≥ 100 then "moderate community interest"
            else "limited community engagement"
  let l2 := if repo_info.has_tests then "comprehensive test coverage"
            else "no tests found"
  let l3 := if repo_info.commit_count ≥ 100 then "active maintenance"
            else if repo_info.commit_count ≥ 10 then "recent commits"
            else "inactive repository"
  let l4 := if repo_info.open_issues = 0 then "well-maintained"
            else if repo_info.open_issues ≤ 10 then "some technical debt"
            else "significant technical debt"
  [l1, l2, l3, l4]

/-- The five-line trace built by `evaluate_repo_with_asi`. -/
def asiTrace (repo_info : RepoInfo) (score : Int) : List String :=
  let stars := repo_info.stars
  let commit_count := repo_info.commit_count
  let open_issues := repo_info.open_issues
  let testsLine := if repo_info.has_tests then "Present" else "Missing"
  [s!"Repository analysis completed: {score}/100",
   s!"Community engagement: {stars} stars",
   s!"Development activity: {commit_count} commits",
   s!"Test coverage: {testsLine}",
   s!"Issue management: {open_issues} open issues"]

/-- The ambient state of the ASI path: whether `ASI_API_KEY` is set (read
both by `main.py` and by `evaluate_repo`), the narrative text the external
model returned (or the error text substituted for it — it never reaches the
score or trace), and whether the `try` block of `evaluate_repo_with_asi`
hit an unexpected exception (which triggers the local fallback). -/
structure AsiEnv where
  apiKeySet : Bool
  narrative : String
  unexpectedFailure : Bool

/-- `evaluate_repo_with_asi`: indicator-based score and five-line trace; on
any exception, fall back to `evaluate_repo_local`.  The narrative returned
by the AI model appears only in the discarded `analysis_report` field, so it
does not occur in this score/trace value. -/
def evaluate_repo_with_asi (env : AsiEnv) (repo_info : RepoInfo) : Int × List String :=
  if env.unexpectedFailure then evaluate_repo_local repo_info
  else
    let score := get_quality_score (asiQualityIndicators repo_info)
    (score, asiTrace repo_info score)

/-- `evaluate_repo`: dispatch between the ASI path and the local rule table,
guarded by `use_asi and os.getenv("ASI_API_KEY")`. -/
def evaluate_repo (env : AsiEnv) (repo_info : RepoInfo) (use_asi : Bool) : Int × List String :=
  if use_asi && env.apiKeySet then evaluate_repo_with_asi env repo_info
  else evaluate_repo_local repo_info

/-! ## Proof anchor (`hedera_client.py`, `submit_proof`)

On any of: Hedera SDK not importable, operator credentials unset, or the
network transaction raising — `submit_proof` returns
`f"mock_tx_{hash(str(message))}"` instead of raising.  `hash` is CPython's
salted string hash: SipHash-1-3 of the string's bytes under a 128-bit key
drawn at interpreter startup (`PYTHONHASHSEED`), with `hash("") = 0` and a
result of `-1` mapped to `-2`.  The key is an explicit `HashSeed` parameter
here; the byte input is the UTF-8 encoding, which coincides with CPython's
compact representation for the ASCII strings this pipeline hashes.
`str(message)` on the `dict` of strings and ints is embedded as Python
`repr` rendering. -/

/-- Two lowercase hex digits of a byte (the `XX` of `\xXX`). -/
def hex2 (n : Nat) : String := String.mk [hexDigit (n / 16 % 16), hexDigit (n % 16)]

/-- One character of CPython `repr` of a string, given the chosen quote
character: backslash and quote escapes, `\n`/`\r`/`\t`, `\xXX` for other
ASCII control characters.  (Printability classes of non-ASCII characters
are not distinguished; the pipeline's messages are ASCII.) -/
def pyReprEscape (quote : Char) (c : Char) : String :=
  if c = '\\' then "\\\\"
  else if c = quote then "\\" ++ String.singleton quote
  else if c = '\n' then "\\n"
  else if c = '\r' then "\\r"
  else if c = '\t' then "\\t"
  else if c.toNat < 32 || c.toNat = 127 then "\\x" ++ hex2 c.toNat
  else String.singleton c

/-- CPython `repr` of a string: single-quoted, unless the string contains a
single quote and no double quote. -/
def pyReprStr (s : String) : String :=
  let quote := if s.data.contains '\'' && !(s.data.contains '"') then '"' else '\''
  String.singleton quote ++ String.join (s.data.map (pyReprEscape quote)) ++ String.singleton quote

/-- The value types occurring in the dict passed to `submit_proof`
(`main.py` builds it from strings and an int score). -/
inductive PyPrim
  | pyStr (s : String)
  | pyInt (n : Int)
  deriving DecidableEq, Repr

/-- `repr` of a primitive value. -/
def pyReprPrim : PyPrim → String
  | .pyStr s => pyReprStr s
  | .pyInt n => toString n

/-- Python `str` of a dict (its `repr`): `{'key': value, ...}` in insertion
order. -/
def pyStrOfDict (m : List (String × PyPrim)) : String :=
  "\x7b" ++ joinSep ", "
    (m.map fun kv => pyReprStr kv.1 ++ ": " ++ pyReprPrim kv.2) ++ "\x7d"

/-- Reduce to a 64-bit word. -/
def w64 (n : Nat) : Nat := n % 18446744073709551616

/-- Left rotation of a 64-bit word by `n` places (`0 < n < 64`). -/
def rotl64 (x n : Nat) : Nat := w64 (x * 2 ^ n) + x / 2 ^ (64 - n)

/-- The four working variables of SipHash. -/
structure SipState where
  v0 : Nat
  v1 : Nat
  v2 : Nat
  v3 : Nat
  deriving Repr

/-- One SipRound. -/
def sipRound (s : SipState) : SipState :=
  let v0 := w64 (s.v0 + s.v1)
  let v1 := rotl64 s.v1 13
  let v1 := v1 ^^^ v0
  let v0 := rotl64 v0 32
  let v2 := w64 (s.v2 + s.v3)
  let v3 := rotl64 s.v3 16
  let v3 := v3 ^^^ v2
  let v0 := w64 (v0 + v3)
  let v3 := rotl64 v3 21
  let v3 := v3 ^^^ v0
  let v2 := w64 (v2 + v1)
  let v1 := rotl64 v1 17
  let v1 := v1 ^^^ v2
  let v2 := rotl64 v2 32
  { v0 := v0, v1 := v1, v2 := v2, v3 := v3 }

/-- A little-endian word from up to eight bytes. -/
def leWord (bytes : List Nat) : Nat := bytes.foldr (fun b acc => acc * 256 + b) 0

/-- Split bytes into full 8-byte little-endian words plus the trailing
bytes (structural recursion on a fuel bound). -/
def sipBlocks : Nat → List Nat → List Nat × List Nat
  | 0, rest => ([], rest)
  | fuel + 1, rest =>
      if rest.length ≥ 8 then
        let (ws, tail) := sipBlocks fuel (rest.drop 8)
        (leWord (rest.take 8) :: ws, tail)
      else ([], rest)

/-- SipHash-1-3 of a byte list under a 128-bit key given as two 64-bit
words: one compression round per message word, three finalization rounds. -/
def siphash13 (k0 k1 : Nat) (data : List Nat) : Nat :=
  let st : SipState :=
    { v0 := k0 ^^^ 8317987319222330741, v1 := k1 ^^^ 7237128888997146477,
      v2 := k0 ^^^ 7816392313619706465, v3 := k1 ^^^ 8387220255154660723 }
  let (ws, tail) := sipBlocks data.length data
  let st := ws.foldl (fun st m =>
    let st := { st with v3 := st.v3 ^^^ m }
    let st := sipRound st
    { st with v0 := st.v0 ^^^ m }) st
  let bfin := w64 (data.length % 256 * 72057594037927936 + leWord tail)
  let st := { st with v3 := st.v3 ^^^ bfin }
  let st := sipRound st
  let st := { st with v0 := st.v0 ^^^ bfin }
  let st := { st with v2 := st.v2 ^^^ 255 }
  let st := sipRound (sipRound (sipRound st))
  w64 (st.v0 ^^^ st.v1 ^^^ st.v2 ^^^ st.v3)

/-- The 128-bit key CPython draws for string hashing when the interpreter
starts (`PYTHONHASHSEED`); fixed for the lifetime of one process. -/
structure HashSeed where
  k0 : Nat
  k1 : Nat

/-- CPython `hash` of a string: 0 for the empty string, otherwise the
signed 64-bit reading of SipHash-1-3 of its bytes, with `-1` mapped to
`-2`. -/
def pyHashStr (seed : HashSeed) (s : String) : Int :=
  if s = "" then 0
  else
    let h := siphash13 seed.k0 seed.k1 (utf8Encode s)
    let signed : Int :=
      if h < 9223372036854775808 then (h : Int) else (h : Int) - 18446744073709551616
    if signed = -1 then -2 else signed

/-- The synthetic receipt `f"mock_tx_{hash(str(message))}"`. -/
def mockTxId (seed : HashSeed) (message : List (String × PyPrim)) : String :=
  "mock_tx_" ++ toString (pyHashStr seed (pyStrOfDict message))

/-- Python truthiness of `os.getenv` results: `None` and `""` are falsy. -/
def pyTruthyOptStr : Option String → Bool
  | none => false
  | some s => s ≠ ""

/-- The external circumstances of one `submit_proof` call: whether the
Hedera SDK imports, the operator credentials from the environment, and the
outcome of the network transaction (`.ok` the receipt's transaction id,
`.error` the exception text). -/
structure HederaEnv where
  sdkAvailable : Bool
  operatorId : Option String
  operatorKey : Option String
  submitResult : Except String String

/-- `submit_proof` from `hedera_client.py`: returns the real transaction id
on success and the synthetic `mock_tx_` receipt on SDK absence, missing
credentials, or any exception — it never raises (every failure is caught
inside the function). -/
def submit_proof (env : HederaEnv) (seed : HashSeed) (_topic_id : String)
    (message : List (String × PyPrim)) : String :=
  if !env.sdkAvailable then mockTxId seed message
  else if !(pyTruthyOptStr env.operatorId && pyTruthyOptStr env.operatorKey) then
    mockTxId seed message
  else
    match env.submitResult with
    | .ok txid => txid
    | .error _ => mockTxId seed message

/-- `get_hedera_explorer_url`: the caller-visible discriminator between
synthetic and real receipts — anything starting with `mock_tx_` maps to the
mock marker URL, everything else to a real explorer link. -/
def get_hedera_explorer_url (transaction_id : String) : String :=
  if pyStartsWith transaction_id "mock_tx_" then
    "https://hashscan.io/testnet (mock transaction)"
  else
    "https://hashscan.io/testnet/transaction/" ++ transaction_id.replace "-" "@"

/-! ## Result store (`storage.py`)

The store is a JSON file holding a list of evaluation dicts, plus a sibling
`.backup` file.  The file system is embedded as a `StoreState` of the two
file contents; a content is absent, well formed (a parsed list of records),
or unreadable (`corrupt` — e.g. left by a write that failed partway).
`json.dump(..., default=str)` stringifies the one non-JSON value the
pipeline stores (the `datetime` timestamp); the byte-level JSON round-trip
is the identity on the JSON-native values, so serialization is embedded as
that `default=str` normalization.  Whether a given `open`/`write` raises is
an input (`WriteOutcome`), since it depends on the machine, not the code. -/

/-- The values occurring in a stored evaluation dict (`result.dict()`):
strings, ints, the trace list, `None`, and the `datetime` timestamp
(carrying its `str()` rendering, which is all `default=str` uses). -/
inductive StoredVal
  | vStr (s : String)
  | vInt (n : Int)
  | vStrList (l : List String)
  | vNone
  | vDatetime (rendered : String)
  deriving DecidableEq, Repr

/-- A stored record: a dict in insertion order. -/
abbrev StoredRecord := List (String × StoredVal)

/-- `json.dump(..., default=str)` on one value: a `datetime` becomes its
`str()` rendering; JSON-native values are written (and re-read) as is. -/
def jsonDefaultStr : StoredVal → StoredVal
  | .vDatetime r => .vStr r
  | v => v

/-- The `default=str` normalization of a whole record. -/
def jsonNormalizeRecord (r : StoredRecord) : StoredRecord :=
  r.map fun kv => (kv.1, jsonDefaultStr kv.2)

/-- The content of one file of the store. -/
inductive FileContent
  | absent
  | corrupt
  | wellFormed (entries : List StoredRecord)
  deriving DecidableEq, Repr

/-- The two files of the store: `storage.json` and `storage.json.backup`. -/
structure StoreState where
  main : FileContent
  backup : FileContent
  deriving DecidableEq, Repr

/-- A store with neither file present. -/
def emptyStore : StoreState := { main := .absent, backup := .absent }

/-- Whether the file operations of one `save_storage` call raise: the write
of `storage.json`, and the restore copy from the backup. -/
structure WriteOutcome where
  writeFails : Bool
  restoreFails : Bool
  deriving DecidableEq, Repr

/-- Every file operation succeeding. -/
def okOutcome : WriteOutcome := { writeFails := false, restoreFails := false }

/-- `save_storage` from `storage.py`: back up `storage.json` if it exists,
write the full new list, and on an exception restore the backup — the
exception itself is caught, printed, and swallowed (the function never
raises).  A failed write leaves `storage.json` unreadable until the restore
succeeds; if the backup restore also raises (inner `except: pass`) the file
stays unreadable. -/
def save_storage (o : WriteOutcome) (data : List StoredRecord) (s : StoreState) : StoreState :=
  -- Create backup before writing
  let s1 := if s.main ≠ .absent then { s with backup := s.main } else s
  if !o.writeFails then
    -- Write new data
    { s1 with main := .wellFormed (data.map jsonNormalizeRecord) }
  else
    -- Restore from backup if available
    let s2 := { s1 with main := FileContent.corrupt }
    if s2.backup ≠ .absent && !o.restoreFails then { s2 with main := s2.backup } else s2

/-- `ensure_storage_exists`: write an empty list if `storage.json` is
missing. -/
def ensure_storage_exists (o : WriteOutcome) (s : StoreState) : StoreState :=
  if s.main = .absent then save_storage o [] s else s

/-- `load_storage`: ensure the file exists, then parse it; a missing or
unparseable file yields `[]` (the `JSONDecodeError`/`FileNotFoundError`
handler). -/
def load_storage (o : WriteOutcome) (s : StoreState) : List StoredRecord × StoreState :=
  let s := ensure_storage_exists o s
  match s.main with
  | .wellFormed entries => (entries, s)
  | _ => ([], s)

/-- `save_evaluation`: ensure, load the full list, append the one record,
and write the whole list back.  The load happens outside the storage lock;
only `save_storage` itself takes it. -/
def save_evaluation (oEnsure oSave : WriteOutcome) (result : StoredRecord)
    (s : StoreState) : StoreState :=
  let s := ensure_storage_exists oEnsure s
  let (storage, s) := load_storage oEnsure s
  save_storage oSave (storage ++ [result]) s

/-- `get_evaluations_by_repo`: linear scan for records whose `repo` field
equals `f"{owner}/{repo}"`. -/
def get_evaluations_by_repo (o : WriteOutcome) (owner repo : String)
    (s : StoreState) : List StoredRecord × StoreState :=
  let (storage, s) := load_storage o s
  let repo_name := owner ++ "/" ++ repo
  (storage.filter fun r => r.lookup "repo" == some (.vStr repo_name), s)

/-- `get_all_evaluations`: the full list. -/
def get_all_evaluations (o : WriteOutcome) (s : StoreState) : List StoredRecord × StoreState :=
  load_storage o s

/-- Two concurrent `save_evaluation` calls under the interleaving the GIL
permits: both callers run their (unlocked) `ensure` + `load_storage` before
either takes the write lock, then the two `save_storage` writes run in
turn.  Every step is the unchanged single-caller code above. -/
def save_evaluation_interleaved (r1 r2 : StoredRecord) (s : StoreState) : StoreState :=
  let s := ensure_storage_exists okOutcome s
  let (l1, s) := load_storage okOutcome s
  let (l2, s) := load_storage okOutcome s
  let s := save_storage okOutcome (l1 ++ [r1]) s
  let s := save_storage okOutcome (l2 ++ [r2]) s
  s

/-- Two sequential `save_evaluation` calls, for contrast. -/
def save_evaluation_sequential (r1 r2 : StoredRecord) (s : StoreState) : StoreState :=
  save_evaluation okOutcome okOutcome r2 (save_evaluation okOutcome okOutcome r1 s)

/-- What a read of `storage.json` parses in a given state: the entry list of
a well-formed file, `[]` for a missing or unreadable one. -/
def loadedEntries (s : StoreState) : List StoredRecord :=
  match s.main with
  | .wellFormed entries => entries
  | _ => []

/-! ## Request validation (`validators.py`, `cache.py`) and the
`/evaluate` endpoint (`main.py`)

Exceptions are embedded as an `Except PyExc` control flow through the
endpoint body; the two `except` clauses at the bottom of
`evaluate_repository` translate the escaped exception into the
caller-visible HTTP failure.  `fastapi.HTTPException` is a subclass of
`Exception` and not of `ValueError`, so an `HTTPException` raised inside
the `try` block is caught by the blanket `except Exception` handler. -/

/-- The exceptions that reach the endpoint's handlers. -/
inductive PyExc
  | httpError (status : Nat) (detail : String)
  | valueError (msg : String)
  | otherError (msg : String)
  deriving DecidableEq, Repr

/-- Python `str()` of an exception (Starlette's `HTTPException.__str__` is
`f"{self.status_code}: {self.detail}"`; for the others it is the message). -/
def strOfExc : PyExc → String
  | .httpError status detail => toString status ++ ": " ++ detail
  | .valueError m => m
  | .otherError m => m

/-- The characters after the first `://`, when there is one. -/
def afterSchemeSep : List Char → Option (List Char)
  | [] => none
  | ':' :: '/' :: '/' :: rest => some rest
  | _ :: rest => afterSchemeSep rest

/-- Python `s.split(sep)` for a one-character separator: always at least
one (possibly empty) field. -/
def splitOnChar (sep : Char) : List Char → List (List Char)
  | [] => [[]]
  | c :: rest =>
      if c = sep then [] :: splitOnChar sep rest
      else
        match splitOnChar sep rest with
        | g :: gs => (c :: g) :: gs
        | [] => [[c]]

/-- The netloc and path of `urllib.parse.urlparse`, for URLs of the
spec's input form `scheme://host/path` (query and fragment are split off
the path; params splitting is not modeled). -/
def urlNetlocPath (url : String) : String × String :=
  match afterSchemeSep url.data with
  | some after =>
      let netloc := String.mk (after.takeWhile (· ≠ '/'))
      let path := String.mk ((after.dropWhile (· ≠ '/')).takeWhile
        fun c => c ≠ '?' && c ≠ '#')
      (netloc, path)
  | none => ("", String.mk (url.data.takeWhile fun c => c ≠ '?' && c ≠ '#'))

/-- Python `s.strip('/')`. -/
def stripSlashes (s : String) : String :=
  String.mk (((s.data.dropWhile (· = '/')).reverse.dropWhile (· = '/')).reverse)

/-- An ASCII letter or digit (the character class `[a-zA-Z0-9]`). -/
def isAsciiAlnum (c : Char) : Bool := c.isAlpha || c.isDigit

/-- The owner-name regex `^[a-zA-Z0-9]([a-zA-Z0-9-]*[a-zA-Z0-9])?$`:
nonempty, alphanumeric at both ends, alphanumeric or `-` in between. -/
def matchesOwnerPattern (s : String) : Bool :=
  match s.data with
  | [] => false
  | [c] => isAsciiAlnum c
  | c :: rest =>
      isAsciiAlnum c &&
      rest.dropLast.all (fun x => isAsciiAlnum x || x = '-') &&
      (match rest.getLast? with
       | some l => isAsciiAlnum l
       | none => true)

/-- The repo-name regex `^[a-zA-Z0-9]([a-zA-Z0-9._-]*[a-zA-Z0-9])?$`. -/
def matchesRepoPattern (s : String) : Bool :=
  match s.data with
  | [] => false
  | [c] => isAsciiAlnum c
  | c :: rest =>
      isAsciiAlnum c &&
      rest.dropLast.all (fun x => isAsciiAlnum x || x = '.' || x = '_' || x = '-') &&
      (match rest.getLast? with
       | some l => isAsciiAlnum l
       | none => true)

/-- `validate_github_url` from `validators.py`: netloc must be
`github.com` or `www.github.com`, the path must have at least two segments,
and the first two must match the owner and repo patterns. -/
def validate_github_url (url : String) : Bool :=
  let netloc := (urlNetlocPath url).1
  let path := (urlNetlocPath url).2
  if netloc ≠ "github.com" && netloc ≠ "www.github.com" then false
  else
    match splitOnChar '/' (stripSlashes path).data with
    | owner :: repo :: _ =>
        matchesOwnerPattern (String.mk owner) && matchesRepoPattern (String.mk repo)
    | _ => false

/-- `validate_repo_name` from `validators.py`. -/
def validate_repo_name (owner repo : String) : Bool :=
  matchesOwnerPattern owner && matchesRepoPattern repo

/-- `cached_parse_github_url` from `cache.py`: the first two path segments,
or a `ValueError` when there are fewer. -/
def cached_parse_github_url (url : String) : Except String (String × String) :=
  match splitOnChar '/' (stripSlashes (urlNetlocPath url).2).data with
  | owner :: repo :: _ => .ok (String.mk owner, String.mk repo)
  | _ => .error "Invalid GitHub URL format"

/-- `parse_github_url` from `github_client.py`: any exception is rewrapped
as `ValueError(f"Could not parse GitHub URL: {e}")`. -/
def parse_github_url (url : String) : Except PyExc (String × String) :=
  match cached_parse_github_url url with
  | .ok p => .ok p
  | .error m => .error (.valueError ("Could not parse GitHub URL: " ++ m))

/-- The timestamp object `datetime.now()` of one request: its
`isoformat()` (sent to Hedera) and its `str()` (what `default=str` stores). -/
structure Clock where
  iso : String
  rendered : String
  deriving DecidableEq, Repr

/-- The `EvaluationResult` model from `models.py`. -/
structure EvaluationResult where
  repo : String
  score : Int
  trace : List String
  trace_hash : String
  hedera_tx : Option String
  timestamp : Clock
  deriving DecidableEq, Repr

/-- `result.dict()`: the record handed to the store. -/
def EvaluationResult.toDict (r : EvaluationResult) : StoredRecord :=
  [("repo", .vStr r.repo), ("score", .vInt r.score), ("trace", .vStrList r.trace),
   ("trace_hash", .vStr r.trace_hash),
   ("hedera_tx", match r.hedera_tx with | some t => StoredVal.vStr t | none => StoredVal.vNone),
   ("timestamp", .vDatetime r.timestamp.rendered)]

/-- The external collaborators of one `/evaluate` request: the GitHub fetch
outcome (a `RepoInfo` or the `ValueError` that `fetch_github_data` raises),
the ASI state, the Hedera state, the process hash seed, the configured
topic id, the request's clock reading, and the file-system outcomes of the
two write points inside `save_evaluation`.  The IPFS upload at the end of
the endpoint runs in its own `try`, and its results are written to a local
copy of the dict that is then discarded, so it has no observable effect on
the response or the store and carries no parameter here. -/
structure PipelineEnv where
  fetchResult : String → String → Except PyExc RepoInfo
  asi : AsiEnv
  hedera : HederaEnv
  seed : HashSeed
  topicId : String
  now : Clock
  ensureOutcome : WriteOutcome
  saveOutcome : WriteOutcome

/-- The `try` block of `evaluate_repository` in `main.py`, step by step:
validate the URL (an `HTTPException(400)` on failure), parse it, validate
the names (again `HTTPException(400)`), fetch, score, hash, anchor, build
the result, persist it. -/
def evaluate_repository_body (env : PipelineEnv) (s : StoreState) (repo_url : String) :
    Except PyExc (EvaluationResult × StoreState) :=
  if !validate_github_url repo_url then
    .error (.httpError 400 "Invalid GitHub URL format")
  else
    match parse_github_url repo_url with
    | .error e => .error e
    | .ok (owner, repo) =>
      if !validate_repo_name owner repo then
        .error (.httpError 400 "Invalid repository name format")
      else
        let repo_name := owner ++ "/" ++ repo
        match env.fetchResult owner repo with
        | .error e => .error e
        | .ok repo_info =>
          let use_asi := env.asi.apiKeySet
          let evaluation := evaluate_repo env.asi repo_info use_asi
          let score := evaluation.1
          let trace := evaluation.2
          let trace_hash := generate_trace_hash trace
          let hedera_message : List (String × PyPrim) :=
            [("repo", .pyStr repo_name), ("score", .pyInt score),
             ("trace_hash", .pyStr trace_hash), ("timestamp", .pyStr env.now.iso)]
          let hedera_tx := submit_proof env.hedera env.seed env.topicId hedera_message
          let result : EvaluationResult :=
            { repo := repo_name, score := score, trace := trace,
              trace_hash := trace_hash, hedera_tx := some hedera_tx,
              timestamp := env.now }
          let s := save_evaluation env.ensureOutcome env.saveOutcome result.toDict s
          .ok (result, s)

/-- The caller-visible outcome of an endpoint call. -/
inductive HttpResponse (α : Type)
  | ok (value : α)
  | httpFailure (status : Nat) (detail : String)
  deriving DecidableEq, Repr

/-- `evaluate_repository` with its two `except` clauses: a `ValueError`
becomes a 400 with `str(e)` as detail; every other exception — including
an `HTTPException(400)` raised inside the `try` block — is caught by
`except Exception` and rewrapped as a 500. -/
def evaluate_repository (env : PipelineEnv) (s : StoreState) (repo_url : String) :
    HttpResponse (EvaluationResult × StoreState) :=
  match evaluate_repository_body env s repo_url with
  | .ok v => .ok v
  | .error (.valueError m) => .httpFailure 400 m
  | .error e => .httpFailure 500 ("Internal server error: " ++ strOfExc e)

/-- `.ok`-ness of a response (the request succeeded with a 2xx). -/
def HttpResponse.isOk : HttpResponse α → Bool
  | .ok _ => true
  | .httpFailure _ _ => false

/-- The HTTP status of a response (FastAPI's default success code for the
endpoint is 200). -/
def HttpResponse.status : HttpResponse α → Nat
  | .ok _ => 200
  | .httpFailure s _ => s

/-! ## Concrete fixtures

Closed inputs used to evaluate the pipeline at specific points. -/

/-- ASI configured and healthy. -/
def asiEnvOn : AsiEnv :=
  { apiKeySet := true, narrative := "AI narrative", unexpectedFailure := false }

/-- ASI not configured. -/
def asiEnvOff : AsiEnv :=
  { apiKeySet := false, narrative := "", unexpectedFailure := false }

/-- One possible process hash seed. -/
def seedA : HashSeed := { k0 := 0, k1 := 0 }

/-- A different process hash seed. -/
def seedB : HashSeed := { k0 := 0, k1 := 1 }

/-- A Hedera environment with the SDK absent (Scenario C's unreachable
ledger: the import fails, so no network call is attempted). -/
def hederaDownEnv : HederaEnv :=
  { sdkAvailable := false, operatorId := none, operatorKey := none,
    submitResult := .error "network unreachable" }

/-- A proof message of the shape `main.py` submits. -/
def sampleMessage : List (String × PyPrim) :=
  [("repo", .pyStr "foo/bar"), ("score", .pyInt 0),
   ("trace_hash", .pyStr "ab"), ("timestamp", .pyStr "2024-01-01T00:00:00")]

/-- The clock reading used by the concrete endpoint runs. -/
def testClock : Clock :=
  { iso := "2024-01-01T00:00:00", rendered := "2024-01-01 00:00:00" }

/-- A pipeline environment: GitHub returns the Scenario B facts, ASI is
off, the ledger is down, every file write succeeds. -/
def testEnv : PipelineEnv :=
  { fetchResult := fun _ _ => .ok scenarioB, asi := asiEnvOff,
    hedera := hederaDownEnv, seed := seedA, topicId := "default_topic",
    now := testClock, ensureOutcome := okOutcome, saveOutcome := okOutcome }

/-- The same environment with GitHub answering 404 (`fetch_github_data`
raises `ValueError("Repository not found")`). -/
def testEnvNotFound : PipelineEnv :=
  { testEnv with fetchResult := fun _ _ => .error (.valueError "Repository not found") }

/-- The same environment with the store's write of `storage.json` raising. -/
def testEnvFailingStore : PipelineEnv :=
  { testEnv with saveOutcome := { writeFails := true, restoreFails := false } }

/-- A record whose values are all JSON-native. -/
def recNoDatetime : StoredRecord :=
  [("repo", .vStr "foo/bar"), ("score", .vInt 0)]

/-- A record carrying a `datetime` timestamp, as every record the pipeline
stores does. -/
def recWithDatetime : StoredRecord :=
  [("repo", .vStr "foo/bar"), ("score", .vInt 0),
   ("timestamp", .vDatetime "2024-01-01 00:00:00")]

/-- First record of the concurrent-append scenario. -/
def recA : StoredRecord := [("repo", .vStr "a/x"), ("score", .vInt 1)]

/-- Second record of the concurrent-append scenario. -/
def recB : StoredRecord := [("repo", .vStr "b/y"), ("score", .vInt 2)]

/-! ## Helper lemmas -/

/-- `String.append` concatenates the character lists. -/
theorem dataAppend (a b : String) : (a ++ b).data = a.data ++ b.data := by
  cases a; cases b; rfl

/-- `String.join` via its `foldl`, with an arbitrary accumulator. -/
theorem foldlAppendData (l : List String) (acc : String) :
    (l.foldl (fun r s => r ++ s) acc).data = acc.data ++ (l.map String.data).flatten := by
  induction l generalizing acc with
  | nil => simp
  | cons s rest ih => simp [ih, dataAppend]

/-- The characters of `String.join` are the flattened character lists. -/
theorem joinData (l : List String) : (String.join l).data = (l.map String.data).flatten := by
  unfold String.join
  rw [foldlAppendData]
  rfl

/-- Every value of `hexDigit` is one of the sixteen lowercase hex digits
(the out-of-range default is `'0'`). -/
theorem hexDigit_mem (n : Nat) : hexDigit n ∈ hexChars := by
  unfold hexDigit
  rcases Nat.lt_or_ge n 16 with h | h
  · interval_cases n <;> decide
  · rw [List.getD_eq_default]
    · decide
    · simp [hexChars]; omega

/-- The characters of `hex8`. -/
theorem hex8_data (w : Nat) :
    (hex8 w).data = (List.range 8).map fun i => hexDigit (w / 16 ^ (7 - i) % 16) := rfl

/-- `hex8` always renders eight characters. -/
theorem hex8_len (w : Nat) : (hex8 w).data.length = 8 := by
  rw [hex8_data]; simp

/-- Every character of `hex8` is a lowercase hex digit. -/
theorem hex8_mem (w : Nat) : ∀ c ∈ (hex8 w).data, c ∈ hexChars := by
  intro c hc
  rw [hex8_data] at hc
  simp only [List.mem_map, List.mem_range] at hc
  obtain ⟨i, -, rfl⟩ := hc
  exact hexDigit_mem _

/-- One compression step always yields eight words. -/
theorem sha256Compress_length (hs block : List Nat) : (sha256Compress hs block).length = 8 := rfl

/-- Folding the compression function preserves the eight-word shape. -/
theorem foldl_compress_length (blocks : List (List Nat)) (hs : List Nat) (h : hs.length = 8) :
    (blocks.foldl sha256Compress hs).length = 8 := by
  induction blocks generalizing hs with
  | nil => exact h
  | cons b bs ih => exact ih _ rfl

/-- A SHA-256 digest is eight words. -/
theorem sha256Words_length (msg : List Nat) : (sha256Words msg).length = 8 :=
  foldl_compress_length _ _ rfl

/-- A SHA-256 hex digest is 64 characters. -/
theorem sha256Hexdigest_length (msg : List Nat) : (sha256Hexdigest msg).length = 64 := by
  show (String.join ((sha256Words msg).map hex8)).data.length = 64
  rw [joinData, List.length_flatten]
  simp only [List.map_map, Function.comp_def]
  rw [List.map_congr_left fun w _ => hex8_len w, List.map_const', List.sum_replicate,
    sha256Words_length]
  simp

/-- Every character of a SHA-256 hex digest is a lowercase hex digit. -/
theorem sha256Hexdigest_mem (msg : List Nat) :
    ∀ c ∈ (sha256Hexdigest msg).data, c ∈ hexChars := by
  intro c hc
  have h : (sha256Hexdigest msg).data = (((sha256Words msg).map hex8).map String.data).flatten :=
    joinData _
  rw [h, List.mem_flatten] at hc
  obtain ⟨l, hl, hcl⟩ := hc
  rw [List.map_map, List.mem_map] at hl
  obtain ⟨w, -, rfl⟩ := hl
  exact hex8_mem w c hcl

/-- The embedded SHA-256 reproduces the FIPS 180-4 test vector for the
empty message. -/
theorem sha256_empty_vector :
    sha256Hexdigest (utf8Encode "") =
      "e3b0c44298fc1c149afbf4c8996fb92427ae41e4649b934ca495991b7852b855" := by decide

/-- The embedded SHA-256 reproduces the FIPS 180-4 test vector for
`"abc"`. -/
theorem sha256_abc_vector :
    sha256Hexdigest (utf8Encode "abc") =
      "ba7816bf8f01cfea414140de5dae2223b00361a396177a9cb410ff61f20015ad" := by decide

/-- The embedded trace hasher reproduces
`hashlib.sha256(json.dumps(trace, sort_keys=True).encode()).hexdigest()` on
a two-line trace. -/
theorem trace_hash_vector :
    generate_trace_hash ["Has tests: +25", "No open issues: +15"] =
      "58dc176214b74ef82f42b8497a6552bccbf9d3b9774270c2731265db94350fea" := by decide

/-- The embedded string hash reproduces CPython's `hash("abc")` under
`PYTHONHASHSEED=0` (SipHash-1-3, zero key). -/
theorem pyHash_abc_vector : pyHashStr seedA "abc" = -4594863902769663758 := by decide

/-- A list starts with itself followed by anything. -/
theorem startsWithChars_append (pre t : List Char) : startsWithChars pre (pre ++ t) = true := by
  induction pre with
  | nil => rfl
  | cons c cs ih => simp [startsWithChars, ih]

/-- A string starts with its own prefix. -/
theorem pyStartsWith_append (pre t : String) : pyStartsWith (pre ++ t) pre = true := by
  unfold pyStartsWith
  rw [dataAppend]
  exact startsWithChars_append _ _

/-- Every synthetic receipt carries the `mock_tx_` marker. -/
theorem mockTxId_marker (seed : HashSeed) (m : List (String × PyPrim)) :
    pyStartsWith (mockTxId seed m) "mock_tx_" = true := by
  unfold mockTxId; exact pyStartsWith_append _ _

/-- Shape of the stars block: exactly one trace line, 0–50 points. -/
theorem starsBlock_shape (s : Int) (st : Int × List String) :
    (starsBlock s st).2.length = st.2.length + 1 ∧
    st.1 ≤ (starsBlock s st).1 ∧ (starsBlock s st).1 ≤ st.1 + 50 := by
  unfold starsBlock; split_ifs <;> simp

/-- Shape of the tests block: exactly one trace line, 0–25 points. -/
theorem testsBlock_shape (b : Bool) (st : Int × List String) :
    (testsBlock b st).2.length = st.2.length + 1 ∧
    st.1 ≤ (testsBlock b st).1 ∧ (testsBlock b st).1 ≤ st.1 + 25 := by
  unfold testsBlock; split_ifs <;> simp

/-- Shape of the activity block: exactly one trace line, 0–20 points. -/
theorem activityBlock_shape (c : Int) (st : Int × List String) :
    (activityBlock c st).2.length = st.2.length + 1 ∧
    st.1 ≤ (activityBlock c st).1 ∧ (activityBlock c st).1 ≤ st.1 + 20 := by
  unfold activityBlock; split_ifs <;> simp

/-- Shape of the issues block: exactly one trace line, 0–15 points. -/
theorem issuesBlock_shape (i : Int) (st : Int × List String) :
    (issuesBlock i st).2.length = st.2.length + 1 ∧
    st.1 ≤ (issuesBlock i st).1 ∧ (issuesBlock i st).1 ≤ st.1 + 15 := by
  unfold issuesBlock; split_ifs <;> simp

/-- Shape of the language block: one trace line exactly when the language
is truthy, 0–5 points. -/
theorem languageBlock_shape (lang : Option String) (st : Int × List String) :
    (languageBlock lang st).2.length = st.2.length + (if optStrTruthy lang then 1 else 0) ∧
    st.1 ≤ (languageBlock lang st).1 ∧ (languageBlock lang st).1 ≤ st.1 + 5 := by
  rcases lang with _ | l <;> simp [languageBlock, optStrTruthy] <;> split_ifs <;> simp_all

/-- Shape of the size block: one trace line exactly when the size is truthy
and above 1000 KB, 0–10 points. -/
theorem sizeBlock_shape (size : Option Int) (st : Int × List String) :
    (sizeBlock size st).2.length = st.2.length + (if sizeFiresCond size then 1 else 0) ∧
    st.1 ≤ (sizeBlock size st).1 ∧ (sizeBlock size st).1 ≤ st.1 + 10 := by
  rcases size with _ | sz <;> simp [sizeBlock, sizeFiresCond] <;> split_ifs <;> simp_all <;>
    omega

/-- Combined shape of `evaluate_repo_local`: the exact trace-line count and
the score range, for every input. -/
theorem eval_local_shape (ri : RepoInfo) :
    (evaluate_repo_local ri).2.length =
      4 + (if languageTruthy ri then 1 else 0) + (if sizeLineFires ri then 1 else 0) ∧
    0 ≤ (evaluate_repo_local ri).1 ∧ (evaluate_repo_local ri).1 ≤ 125 := by
  have h1 := starsBlock_shape ri.stars (0, [])
  have h2 := testsBlock_shape ri.has_tests (starsBlock ri.stars (0, []))
  have h3 := activityBlock_shape ri.commit_count
    (testsBlock ri.has_tests (starsBlock ri.stars (0, [])))
  have h4 := issuesBlock_shape ri.open_issues
    (activityBlock ri.commit_count (testsBlock ri.has_tests (starsBlock ri.stars (0, []))))
  have h5 := languageBlock_shape ri.language
    (issuesBlock ri.open_issues (activityBlock ri.commit_count
      (testsBlock ri.has_tests (starsBlock ri.stars (0, [])))))
  have h6 := sizeBlock_shape ri.size
    (languageBlock ri.language (issuesBlock ri.open_issues (activityBlock ri.commit_count
      (testsBlock ri.has_tests (starsBlock ri.stars (0, []))))))
  unfold evaluate_repo_local languageTruthy sizeLineFires
  simp only [List.length_nil] at *
  constructor
  · rcases h6 with ⟨h6a, -⟩
    rcases h5 with ⟨h5a, -⟩
    omega
  · omega

/-- `lookup` after `default=str` normalization is the normalized `lookup`. -/
theorem lookup_normalize (rec : StoredRecord) (k : String) :
    (jsonNormalizeRecord rec).lookup k = (rec.lookup k).map jsonDefaultStr := by
  induction rec with
  | nil => rfl
  | cons kv rest ih =>
      rcases kv with ⟨k', v⟩
      simp only [jsonNormalizeRecord, List.map_cons, List.lookup]
      cases hbe : k == k' <;> simp only []
      · simpa [jsonNormalizeRecord] using ih
      · rfl

/-- A record with no `datetime` value is fixed by the `default=str`
normalization. -/
theorem normalize_id_of_no_datetime (rec : StoredRecord)
    (h : ∀ kv ∈ rec, ∀ ts, kv.2 ≠ StoredVal.vDatetime ts) :
    jsonNormalizeRecord rec = rec := by
  induction rec with
  | nil => rfl
  | cons kv rest ih =>
      rcases kv with ⟨k', v⟩
      have hv := h (k', v) (by simp)
      have hrest : ∀ kv ∈ rest, ∀ ts, kv.2 ≠ StoredVal.vDatetime ts :=
        fun kv hkv => h kv (List.mem_cons_of_mem _ hkv)
      cases v <;> simp_all [jsonNormalizeRecord, jsonDefaultStr]

/-- After a fully successful `save_evaluation`, `storage.json` holds the
loaded entries plus the new record, all serialized. -/
theorem save_evaluation_ok_state (rec : StoredRecord) (s : StoreState) :
    ∃ bk, save_evaluation okOutcome okOutcome rec s =
      { main := .wellFormed ((loadedEntries s ++ [rec]).map jsonNormalizeRecord),
        backup := bk } := by
  rcases s with ⟨m, b⟩
  rcases m <;> exact ⟨_, rfl⟩

/-- The by-repo query on a well-formed store is a filter of its entries. -/
theorem query_wellFormed (o : WriteOutcome) (owner repo : String)
    (es : List StoredRecord) (bk : FileContent) :
    (get_evaluations_by_repo o owner repo ⟨.wellFormed es, bk⟩).1 =
      es.filter fun r => r.lookup "repo" == some (.vStr (owner ++ "/" ++ repo)) := by
  simp [get_evaluations_by_repo, load_storage, ensure_storage_exists]

/-! ## The claims -/

/-- C1: the claim states that every rule of the six-rule table appends
exactly one trace line even when it awards zero, and that the Scenario B
facts yield score 0 with a six-line trace.  The code violates this: the
language and size blocks have no `else` branch, so Scenario B (language
`None`, size 50) yields a four-line trace. -/
theorem C1_counterexample :
    (evaluate_repo_local scenarioB).1 = 0 ∧
    (evaluate_repo_local scenarioB).2.length = 4 ∧
    ¬(evaluate_repo_local scenarioB).2.length = 6 := by decide

/-- C1 (amended): the stars, tests, activity and issues rules each append
exactly one trace line even when awarding zero; the language rule appends a
line only when the language is truthy, and the size rule only when the size
is truthy and above 1000 KB.  For the Scenario B facts the score is 0 and
the trace has exactly the four zero-award lines. -/
theorem C1_rule_trace_lines :
    (∀ ri : RepoInfo, (evaluate_repo_local ri).2.length =
        4 + (if languageTruthy ri then 1 else 0) + (if sizeLineFires ri then 1 else 0)) ∧
    evaluate_repo_local scenarioB =
      (0, ["Low stars (5): +0", "No tests found: +0", "Low activity (2 commits): +0",
           "Many open issues (20): +0"]) := by
  constructor
  · intro ri
    exact (eval_local_shape ri).1
  · decide

/-- C2: the trace hasher is pure and deterministic — identical trace
content always yields the identical hash — and the result is the SHA-256
digest of the canonical serialization rendered as 64 lowercase hex
characters. -/
theorem C2_trace_hash_pure (T1 T2 : List String) (h : T1 = T2) :
    generate_trace_hash T1 = generate_trace_hash T2 ∧
    (generate_trace_hash T1).length = 64 ∧
    ∀ c ∈ (generate_trace_hash T1).data, c ∈ hexChars := by
  subst h
  exact ⟨rfl, sha256Hexdigest_length _, sha256Hexdigest_mem _⟩

/-- Witness for C2 at the empty trace. -/
theorem C2_witness :
    generate_trace_hash [] = generate_trace_hash [] ∧
    (generate_trace_hash []).length = 64 ∧
    ∀ c ∈ (generate_trace_hash []).data, c ∈ hexChars :=
  C2_trace_hash_pure [] [] rfl

/-- C3: the claim states the persisted score is always determined by the
facts via the deterministic rule table.  The code violates this: with
`ASI_API_KEY` set, the persisted score is the indicator-based quality score
— for the Scenario A facts 100, while the rule table gives 125. -/
theorem C3_counterexample :
    (evaluate_repo asiEnvOn scenarioA true).1 = 100 ∧
    (evaluate_repo_local scenarioA).1 = 125 ∧
    (evaluate_repo asiEnvOn scenarioA true).1 ≠ (evaluate_repo_local scenarioA).1 := by decide

/-- The quality score is capped at 100 (`min(score, 100)`). -/
theorem get_quality_score_le (l : List String) : get_quality_score l ≤ 100 :=
  min_le_right _ _

/-- C3 (amended): the persisted score is fully determined by the facts
together with the ASI configuration — it is either the rule table's score
or the deterministic indicator-based quality score, never a value from the
AI text; when ASI is disabled, unconfigured, or its path raises, it is
exactly the rule table's; when ASI is enabled, configured and healthy, it
is exactly the indicator-based quality score, which is capped at 100; and
the AI narrative never influences the result. -/
theorem C3_score_source (env : AsiEnv) (ri : RepoInfo) (u : Bool) :
    ((evaluate_repo env ri u).1 = (evaluate_repo_local ri).1 ∨
     (evaluate_repo env ri u).1 = get_quality_score (asiQualityIndicators ri)) ∧
    (u = false ∨ env.apiKeySet = false ∨ env.unexpectedFailure = true →
      evaluate_repo env ri u = evaluate_repo_local ri) ∧
    (u = true → env.apiKeySet = true → env.unexpectedFailure = false →
      (evaluate_repo env ri u).1 = get_quality_score (asiQualityIndicators ri)) ∧
    get_quality_score (asiQualityIndicators ri) ≤ 100 ∧
    ∀ n : String, evaluate_repo { env with narrative := n } ri u = evaluate_repo env ri u := by
  have hcap := get_quality_score_le (asiQualityIndicators ri)
  unfold evaluate_repo evaluate_repo_with_asi
  rcases env with ⟨k, nar, f⟩
  rcases u <;> rcases k <;> rcases f <;> simp [hcap]

/-- Witness for C3: with ASI off the dispatcher is the rule table, and
with ASI on and healthy it is the indicator-based quality score. -/
theorem C3_witness :
    evaluate_repo asiEnvOff scenarioB false = evaluate_repo_local scenarioB ∧
    (evaluate_repo asiEnvOn scenarioA true).1 =
      get_quality_score (asiQualityIndicators scenarioA) :=
  ⟨(C3_score_source asiEnvOff scenarioB false).2.1 (Or.inl rfl),
   (C3_score_source asiEnvOn scenarioA true).2.2.1 rfl rfl rfl⟩

/-- C4: the claim states the synthetic receipt is deterministic for
identical input messages.  The code derives it from Python's salted string
hash, so two processes with different hash seeds produce different
synthetic receipts for the identical message. -/
theorem C4_counterexample :
    submit_proof hederaDownEnv seedA "default_topic" sampleMessage ≠
    submit_proof hederaDownEnv seedB "default_topic" sampleMessage := by decide

/-- C4 (amended): on any SDK-absence, configuration, or network failure,
`submit_proof` returns (never raises) the synthetic receipt, which carries
the recognizable `mock_tx_` prefix that the explorer-URL helper uses to
tell it from a real receipt, and which is deterministic for identical input
messages within one process (fixed hash seed); across processes the seed,
an explicit parameter here, may differ. -/
theorem C4_mock_receipt (env : HederaEnv) (seed : HashSeed) (topic : String)
    (msg msg' : List (String × PyPrim))
    (hfail : env.sdkAvailable = false ∨ pyTruthyOptStr env.operatorId = false ∨
             pyTruthyOptStr env.operatorKey = false ∨ ∃ e, env.submitResult = .error e) :
    submit_proof env seed topic msg = mockTxId seed msg ∧
    pyStartsWith (submit_proof env seed topic msg) "mock_tx_" = true ∧
    (msg = msg' → submit_proof env seed topic msg = submit_proof env seed topic msg') ∧
    get_hedera_explorer_url (submit_proof env seed topic msg) =
      "https://hashscan.io/testnet (mock transaction)" := by
  have hmock : submit_proof env seed topic msg = mockTxId seed msg := by
    unfold submit_proof
    rcases hfail with h | h | h | ⟨e, h⟩
    · rw [h]; simp
    · rw [h]; split_ifs <;> simp_all
    · rw [h]; split_ifs <;> simp_all
    · rw [h]; split_ifs <;> simp_all
  refine ⟨hmock, ?_, ?_, ?_⟩
  · rw [hmock]; exact mockTxId_marker _ _
  · rintro rfl; rfl
  · rw [hmock]; unfold get_hedera_explorer_url; rw [mockTxId_marker]; simp

/-- Witness for C4 with the SDK absent (Scenario C). -/
theorem C4_witness :
    submit_proof hederaDownEnv seedA "default_topic" sampleMessage =
      mockTxId seedA sampleMessage ∧
    pyStartsWith (submit_proof hederaDownEnv seedA "default_topic" sampleMessage)
      "mock_tx_" = true ∧
    (sampleMessage = sampleMessage →
      submit_proof hederaDownEnv seedA "default_topic" sampleMessage =
      submit_proof hederaDownEnv seedA "default_topic" sampleMessage) ∧
    get_hedera_explorer_url (submit_proof hederaDownEnv seedA "default_topic" sampleMessage) =
      "https://hashscan.io/testnet (mock transaction)" :=
  C4_mock_receipt hederaDownEnv seedA "default_topic" sampleMessage sampleMessage (Or.inl rfl)

/-- C5: the claim states malformed input fails with 400.  The code raises
`HTTPException(400, "Invalid GitHub URL format")` for a malformed URL, but
its own blanket `except Exception` catches that and rewraps it as a 500 —
so a malformed URL answers 500, while a not-found repository (a
`ValueError` from the fetcher) answers 400 as claimed. -/
theorem C5_malformed_input_500 :
    evaluate_repository testEnv emptyStore "https://gitlab.com/foo/bar" =
      .httpFailure 500 "Internal server error: 400: Invalid GitHub URL format" ∧
    evaluate_repository testEnvNotFound emptyStore "https://github.com/foo/bar" =
      .httpFailure 400 "Repository not found" := by decide

/-- C6: the Scenario A facts score 50+25+20+15+5+10 = 125 with a six-line
trace. -/
theorem C6_scenarioA :
    (evaluate_repo_local scenarioA).1 = 125 ∧
    (evaluate_repo_local scenarioA).2.length = 6 := by decide

/-- C7: the claim states a record appended to the store and retrieved via
the by-repo query comes back equal field-for-field.  The store serializes
with `default=str`, so the `datetime` timestamp comes back as its string
rendering, not the original value. -/
theorem C7_counterexample :
    (get_evaluations_by_repo okOutcome "foo" "bar"
        (save_evaluation okOutcome okOutcome recWithDatetime emptyStore)).1 =
      [jsonNormalizeRecord recWithDatetime] ∧
    (get_evaluations_by_repo okOutcome "foo" "bar"
        (save_evaluation okOutcome okOutcome recWithDatetime emptyStore)).1 ≠
      [recWithDatetime] := by decide

/-- C7 (amended): a record appended to the store and retrieved via the
by-repo query comes back as its JSON serialization — equal
field-for-field up to the `default=str` stringification of the timestamp,
and exactly equal whenever the record holds no `datetime` value. -/
theorem C7_roundtrip_normalized (s : StoreState) (rec : StoredRecord) (owner repo : String)
    (h : rec.lookup "repo" = some (.vStr (owner ++ "/" ++ repo))) :
    (get_evaluations_by_repo okOutcome owner repo
        (save_evaluation okOutcome okOutcome rec s)).1 =
      (((loadedEntries s).map jsonNormalizeRecord).filter
        (fun r => r.lookup "repo" == some (.vStr (owner ++ "/" ++ repo)))) ++
      [jsonNormalizeRecord rec] ∧
    ((∀ kv ∈ rec, ∀ ts, kv.2 ≠ StoredVal.vDatetime ts) → jsonNormalizeRecord rec = rec) := by
  obtain ⟨bk, hsave⟩ := save_evaluation_ok_state rec s
  rw [hsave, query_wellFormed]
  have hp : ((jsonNormalizeRecord rec).lookup "repo"
      == some (StoredVal.vStr (owner ++ "/" ++ repo))) = true := by
    rw [lookup_normalize, h]; simp [jsonDefaultStr]
  constructor
  · rw [List.map_append, List.filter_append]
    simp [hp]
  · exact normalize_id_of_no_datetime rec

/-- Witness for C7 at a JSON-native record on the empty store. -/
theorem C7_witness :
    (get_evaluations_by_repo okOutcome "foo" "bar"
        (save_evaluation okOutcome okOutcome recNoDatetime emptyStore)).1 =
      (((loadedEntries emptyStore).map jsonNormalizeRecord).filter
        (fun r => r.lookup "repo" == some (.vStr ("foo" ++ "/" ++ "bar")))) ++
      [jsonNormalizeRecord recNoDatetime] ∧
    ((∀ kv ∈ recNoDatetime, ∀ ts, kv.2 ≠ StoredVal.vDatetime ts) →
      jsonNormalizeRecord recNoDatetime = recNoDatetime) :=
  C7_roundtrip_normalized emptyStore recNoDatetime "foo" "bar" (by decide)

/-- C8: the claim states a failed durable append surfaces to the caller as
a 5xx.  `save_storage` catches the failure, prints, rolls back, and
returns normally — the endpoint still answers success. -/
theorem C8_counterexample :
    (evaluate_repository testEnvFailingStore emptyStore
      "https://github.com/foo/bar").isOk = true ∧
    (evaluate_repository testEnvFailingStore emptyStore
      "https://github.com/foo/bar").status ≠ 500 := by decide

/-- C8 (amended): on a failed append the store attempts rollback to the
last-good backup (restoring the prior contents when the restore succeeds),
queries never observe a partially-written record (a store left unreadable
loads as the empty list), but the failure is logged and swallowed: the
endpoint's HTTP status is the same whatever the storage outcome — no 5xx
surfaces. -/
theorem C8_rollback_swallowed (data : List StoredRecord) (s : StoreState)
    (es : List StoredRecord) (h : s.main = .wellFormed es) :
    (save_storage ⟨true, false⟩ data s).main = .wellFormed es ∧
    loadedEntries (save_storage ⟨true, false⟩ data s) = es ∧
    loadedEntries (save_storage ⟨true, true⟩ data s) = [] ∧
    ∀ (env : PipelineEnv) (st : StoreState) (url : String) (o1 o2 : WriteOutcome),
      (evaluate_repository { env with ensureOutcome := o1, saveOutcome := o1 } st url).status =
      (evaluate_repository { env with ensureOutcome := o2, saveOutcome := o2 } st url).status := by
  refine ⟨?_, ?_, ?_, ?_⟩
  · rcases s with ⟨m, b⟩; simp only [] at h; subst h; simp [save_storage, loadedEntries]
  · rcases s with ⟨m, b⟩; simp only [] at h; subst h; simp [save_storage, loadedEntries]
  · rcases s with ⟨m, b⟩; simp only [] at h; subst h; simp [save_storage, loadedEntries]
  · intro env st url o1 o2
    rcases env with ⟨fetch, asi, hed, seed, topic, now, eo, so⟩
    unfold evaluate_repository evaluate_repository_body
    simp only []
    split_ifs <;> try rfl
    cases hp : parse_github_url url with
    | error e => rfl
    | ok p =>
      rcases p with ⟨owner, repo⟩
      simp only []
      split_ifs <;> try rfl
      cases hf : fetch owner repo with
      | error e => cases e <;> rfl
      | ok ri => rfl

/-- Witness for C8 at a concrete one-record write over the empty list. -/
theorem C8_witness :
    (save_storage ⟨true, false⟩ [recA]
      { main := .wellFormed [], backup := .absent }).main = .wellFormed [] :=
  (C8_rollback_swallowed [recA] { main := .wellFormed [], backup := .absent } [] rfl).1

/-- C9: the claim states two appends from concurrent callers both survive.
`save_evaluation` reads the list outside the lock, so under the
interleaving where both callers load before either writes, the second
write overwrites the first: only the second record survives, while the
same two appends run sequentially keep both. -/
theorem C9_concurrent_append_lost :
    (get_all_evaluations okOutcome (save_evaluation_interleaved recA recB emptyStore)).1 =
      [recB] ∧
    recA ∉ (get_all_evaluations okOutcome (save_evaluation_interleaved recA recB emptyStore)).1 ∧
    (get_all_evaluations okOutcome (save_evaluation_sequential recA recB emptyStore)).1 =
      [recA, recB] := by decide

/-- C10: the local rule-based evaluator is a total function (the embedding
returns a value for every input, matching the raise-free Python), its
score lies between 0 and 125 inclusive, and its trace has between 4 and 6
lines inclusive. -/
theorem C10_local_bounds (ri : RepoInfo) :
    0 ≤ (evaluate_repo_local ri).1 ∧ (evaluate_repo_local ri).1 ≤ 125 ∧
    4 ≤ (evaluate_repo_local ri).2.length ∧ (evaluate_repo_local ri).2.length ≤ 6 := by
  obtain ⟨hlen, h0, h125⟩ := eval_local_shape ri
  refine ⟨h0, h125, ?_, ?_⟩ <;> rw [hlen] <;> split_ifs <;> omega

end ProofForge
